import Mathlib

/-!
Verification development for the `bmp280` Rust crate (`src/lib.rs`): an I2C
driver for the Bosch BMP280 barometric pressure/temperature sensor.

The driver is shallowly embedded: the I2C device is modelled as a reply
stream (a total function from transaction index to a read reply, which can
be a transport error) together with a log of the bytes written; sensor
methods take and return the `Bmp280` state explicitly, wrapping fallible
results in `Except Error`.  Rust machine integers are modelled as `Int`
with explicit two's-complement wrapping (`wrap32` / `wrap64`), arithmetic
shift right as floor division by a power of two, and shift left as a
wrapped multiplication.  The `f32` results of the driver are modelled as
exact rationals (`Rat`); the transcendental `powf` used by the altitude
formulas is taken as a parameter.
-/

/-! ## Machine-integer arithmetic -/

/-- Two's-complement wraparound into the `i32` range `[-2^31, 2^31)`. -/
def wrap32 (x : Int) : Int := (x + 2 ^ 31) % 2 ^ 32 - 2 ^ 31

/-- Two's-complement wraparound into the `i64` range `[-2^63, 2^63)`. -/
def wrap64 (x : Int) : Int := (x + 2 ^ 63) % 2 ^ 64 - 2 ^ 63

/-- Rust `i32` addition (release-mode wrapping semantics). -/
def add32 (a b : Int) : Int := wrap32 (a + b)

/-- Rust `i32` subtraction (release-mode wrapping semantics). -/
def sub32 (a b : Int) : Int := wrap32 (a - b)

/-- Rust `i32` multiplication (release-mode wrapping semantics). -/
def mul32 (a b : Int) : Int := wrap32 (a * b)

/-- Rust `i32` arithmetic shift right: floor division by `2^n`. -/
def asr32 (a : Int) (n : Nat) : Int := Int.fdiv a (2 ^ n)

/-- Rust `i32` shift left (low 32 bits kept). -/
def shl32 (a : Int) (n : Nat) : Int := wrap32 (a * 2 ^ n)

/-- Rust `i64` addition (release-mode wrapping semantics). -/
def add64 (a b : Int) : Int := wrap64 (a + b)

/-- Rust `i64` subtraction (release-mode wrapping semantics). -/
def sub64 (a b : Int) : Int := wrap64 (a - b)

/-- Rust `i64` multiplication (release-mode wrapping semantics). -/
def mul64 (a b : Int) : Int := wrap64 (a * b)

/-- Rust `i64` arithmetic shift right: floor division by `2^n`. -/
def asr64 (a : Int) (n : Nat) : Int := Int.fdiv a (2 ^ n)

/-- Rust `i64` shift left (low 64 bits kept). -/
def shl64 (a : Int) (n : Nat) : Int := wrap64 (a * 2 ^ n)

/-- Rust `i64` division: truncated toward zero. -/
def div64 (a b : Int) : Int := wrap64 (Int.tdiv a b)

/-- Reinterpret a 16-bit unsigned value as an `i16` (two's complement). -/
def toI16 (v : Nat) : Int := ((v : Int) + 2 ^ 15) % 2 ^ 16 - 2 ^ 15

/-! ## Bytes and buffers -/

/-- The contents of an `n`-byte zero-initialised buffer after the device
reply `l` has been copied into it (each byte reduced mod 256). -/
def fillBuf (n : Nat) (l : List Nat) : List Nat :=
  (l.map (· % 256) ++ List.replicate n 0).take n

/-- Little-endian 16-bit value of a 2-byte buffer (`byteorder::LittleEndian`). -/
def le16 (buf : List Nat) : Nat := buf.getD 0 0 + 256 * buf.getD 1 0

/-- Big-endian 24-bit value of a 3-byte buffer (`byteorder::BigEndian`). -/
def be24 (buf : List Nat) : Nat :=
  65536 * buf.getD 0 0 + 256 * buf.getD 1 0 + buf.getD 2 0

/-! ## Errors (`enum Error`) -/

/-- Opaque payload of a `LinuxI2CError` from the `i2cdev` crate. -/
abbrev LinuxI2CError := Nat

/-- `enum Error { I2cError(LinuxI2CError), IoError(std::io::Error), Other(()) }`.
`IoError` payloads are likewise opaque. -/
inductive Error where
  | I2cError : LinuxI2CError → Error
  | IoError : Nat → Error
  | Other : Unit → Error
  deriving DecidableEq, Repr

/-! ## Register map (`enum Register` and `impl From<&Register> for u8`) -/

/-- `enum Register` from the source. -/
inductive Register where
  | DigT1 | DigT2 | DigT3
  | DigP1 | DigP2 | DigP3 | DigP4 | DigP5 | DigP6 | DigP7 | DigP8 | DigP9
  | ChipId | Version | SoftReset
  | Cal26
  | Control | Config | PressureData | TemperatureData
  deriving DecidableEq, Repr

/-- The register's bus address: `impl<'a> From<&'a Register> for u8`. -/
def Register.addr : Register → Nat
  | .DigT1 => 0x88
  | .DigT2 => 0x8A
  | .DigT3 => 0x8C
  | .DigP1 => 0x8E
  | .DigP2 => 0x90
  | .DigP3 => 0x92
  | .DigP4 => 0x94
  | .DigP5 => 0x96
  | .DigP6 => 0x98
  | .DigP7 => 0x9A
  | .DigP8 => 0x9C
  | .DigP9 => 0x9E
  | .ChipId => 0xD0
  | .Version => 0xD1
  | .SoftReset => 0xE0
  | .Cal26 => 0xE1
  | .Control => 0xF4
  | .Config => 0xF5
  | .PressureData => 0xF7
  | .TemperatureData => 0xFA

/-! ## Calibration (`struct Calibration`) -/

/-- `struct Calibration`: twelve pressure/temperature words plus the unused
humidity words.  `u16` fields are `Nat`, signed fields are `Int`. -/
structure Calibration where
  dig_t1 : Nat
  dig_t2 : Int
  dig_t3 : Int
  dig_p1 : Nat
  dig_p2 : Int
  dig_p3 : Int
  dig_p4 : Int
  dig_p5 : Int
  dig_p6 : Int
  dig_p7 : Int
  dig_p8 : Int
  dig_p9 : Int
  dig_h1 : Nat
  dig_h2 : Int
  dig_h3 : Nat
  dig_h4 : Int
  dig_h5 : Int
  dig_h6 : Int
  deriving DecidableEq, Repr

/-- `impl Default for Calibration` (`mem::zeroed`): all fields zero. -/
def Calibration.default : Calibration :=
  ⟨0, 0, 0, 0, 0, 0, 0, 0, 0, 0, 0, 0, 0, 0, 0, 0, 0, 0⟩

/-! ## The I2C device (external collaborator `LinuxI2CDevice`) -/

/-- Model of a `LinuxI2CDevice`: `replies n` is the reply to the `n`-th read
transaction (bytes delivered, or a transport error); `count` is the number
of reads performed so far; `writes` logs every byte sequence written. -/
structure LinuxI2CDevice where
  replies : Nat → Except LinuxI2CError (List Nat)
  count : Nat
  writes : List (List Nat)

/-- A bus write transaction (`I2CDevice::write`): logged, never failing in
this model. -/
def LinuxI2CDevice.busWrite (d : LinuxI2CDevice) (bytes : List Nat) :
    LinuxI2CDevice :=
  { d with writes := d.writes ++ [bytes] }

/-- A bus read transaction (`I2CDevice::read`): consumes the next reply. -/
def LinuxI2CDevice.busRead (d : LinuxI2CDevice) :
    Except LinuxI2CError (List Nat) × LinuxI2CDevice :=
  (d.replies d.count, { d with count := d.count + 1 })

/-! ## Sensor state (`struct Bmp280`) -/

/-- `struct Bmp280`: sensor id, the `fine` temperature intermediate, the
calibration words, the bus device and the ground-pressure baseline. -/
structure Bmp280 where
  sensor_id : Int
  fine : Int
  calibration : Calibration
  i2c_device : LinuxI2CDevice
  ground_pressure : Rat

/-- `struct Bmp280Builder`. -/
structure Bmp280Builder where
  i2c_address : Nat
  i2c_path : String
  ground_pressure : Rat

/-- `Bmp280Builder::new()`. -/
def Bmp280Builder.new : Bmp280Builder :=
  { i2c_address := 0x77, i2c_path := "/dev/i2c-1", ground_pressure := 0 }

namespace Bmp280

/-- Write `bytes` on the sensor's bus handle. -/
def devWrite (s : Bmp280) (bytes : List Nat) : Bmp280 :=
  { s with i2c_device := s.i2c_device.busWrite bytes }

/-- Read into an `n`-byte zero-initialised buffer on the sensor's bus
handle, converting a transport failure via `From<LinuxI2CError> for Error`. -/
def devReadBuf (s : Bmp280) (n : Nat) : Except Error (List Nat) × Bmp280 :=
  match s.i2c_device.busRead with
  | (Except.error e, d) => (Except.error (Error.I2cError e), { s with i2c_device := d })
  | (Except.ok l, d) => (Except.ok (fillBuf n l), { s with i2c_device := d })

/-- `fn write8`: write the register address followed by the value byte. -/
def write8 (s : Bmp280) (reg : Register) (value : Nat) : Except Error Unit × Bmp280 :=
  (Except.ok (), s.devWrite [reg.addr, value % 256])

/-- `fn read8`: address the register, read one byte. -/
def read8 (s : Bmp280) (reg : Register) : Except Error Nat × Bmp280 :=
  let s := s.devWrite [reg.addr]
  match s.devReadBuf 1 with
  | (Except.error e, s) => (Except.error e, s)
  | (Except.ok buf, s) => (Except.ok (buf.getD 0 0), s)

/-- `fn read16le`: address the register, read two bytes little-endian
unsigned. -/
def read16le (s : Bmp280) (reg : Register) : Except Error Nat × Bmp280 :=
  let s := s.devWrite [reg.addr]
  match s.devReadBuf 2 with
  | (Except.error e, s) => (Except.error e, s)
  | (Except.ok buf, s) => (Except.ok (le16 buf), s)

/-- `fn read16les`: address the register, read two bytes little-endian
signed. -/
def read16les (s : Bmp280) (reg : Register) : Except Error Int × Bmp280 :=
  let s := s.devWrite [reg.addr]
  match s.devReadBuf 2 with
  | (Except.error e, s) => (Except.error e, s)
  | (Except.ok buf, s) => (Except.ok (toI16 (le16 buf)), s)

/-- `fn read24`: address the register, read three bytes big-endian. -/
def read24 (s : Bmp280) (reg : Register) : Except Error Nat × Bmp280 :=
  let s := s.devWrite [reg.addr]
  match s.devReadBuf 3 with
  | (Except.error e, s) => (Except.error e, s)
  | (Except.ok buf, s) => (Except.ok (be24 buf), s)

/-- `fn read_coefficients`: twelve sequential little-endian 16-bit reads
populating the calibration words, in source order T1, T2, T3, P1..P9. -/
def read_coefficients (s : Bmp280) : Except Error Unit × Bmp280 :=
  match s.read16le Register.DigT1 with
  | (Except.error e, s) => (Except.error e, s)
  | (Except.ok t1, s) =>
  let s := { s with calibration := { s.calibration with dig_t1 := t1 } }
  match s.read16les Register.DigT2 with
  | (Except.error e, s) => (Except.error e, s)
  | (Except.ok t2, s) =>
  let s := { s with calibration := { s.calibration with dig_t2 := t2 } }
  match s.read16les Register.DigT3 with
  | (Except.error e, s) => (Except.error e, s)
  | (Except.ok t3, s) =>
  let s := { s with calibration := { s.calibration with dig_t3 := t3 } }
  match s.read16le Register.DigP1 with
  | (Except.error e, s) => (Except.error e, s)
  | (Except.ok p1, s) =>
  let s := { s with calibration := { s.calibration with dig_p1 := p1 } }
  match s.read16les Register.DigP2 with
  | (Except.error e, s) => (Except.error e, s)
  | (Except.ok p2, s) =>
  let s := { s with calibration := { s.calibration with dig_p2 := p2 } }
  match s.read16les Register.DigP3 with
  | (Except.error e, s) => (Except.error e, s)
  | (Except.ok p3, s) =>
  let s := { s with calibration := { s.calibration with dig_p3 := p3 } }
  match s.read16les Register.DigP4 with
  | (Except.error e, s) => (Except.error e, s)
  | (Except.ok p4, s) =>
  let s := { s with calibration := { s.calibration with dig_p4 := p4 } }
  match s.read16les Register.DigP5 with
  | (Except.error e, s) => (Except.error e, s)
  | (Except.ok p5, s) =>
  let s := { s with calibration := { s.calibration with dig_p5 := p5 } }
  match s.read16les Register.DigP6 with
  | (Except.error e, s) => (Except.error e, s)
  | (Except.ok p6, s) =>
  let s := { s with calibration := { s.calibration with dig_p6 := p6 } }
  match s.read16les Register.DigP7 with
  | (Except.error e, s) => (Except.error e, s)
  | (Except.ok p7, s) =>
  let s := { s with calibration := { s.calibration with dig_p7 := p7 } }
  match s.read16les Register.DigP8 with
  | (Except.error e, s) => (Except.error e, s)
  | (Except.ok p8, s) =>
  let s := { s with calibration := { s.calibration with dig_p8 := p8 } }
  match s.read16les Register.DigP9 with
  | (Except.error e, s) => (Except.error e, s)
  | (Except.ok p9, s) =>
  let s := { s with calibration := { s.calibration with dig_p9 := p9 } }
  (Except.ok (), s)

/-- `fn begin`: check the chip identity byte against `0x58`, load the
calibration coefficients, write `0x3F` to the control register. -/
def begin (s : Bmp280) : Except Error Unit × Bmp280 :=
  match s.read8 Register.ChipId with
  | (Except.error e, s) => (Except.error e, s)
  | (Except.ok v, s) =>
  if v ≠ 0x58 then (Except.error (Error.Other ()), s)
  else
  match s.read_coefficients with
  | (Except.error e, s) => (Except.error e, s)
  | (Except.ok _, s) =>
  match s.write8 Register.Control 0x3F with
  | (Except.error e, s) => (Except.error e, s)
  | (Except.ok _, s) => (Except.ok (), s)

/-- The integer arithmetic of `fn temperature_celsius` (source lines
373–382) as a function of the calibration words and the shifted ADC word
`adc_t`: returns the scaled centi-degree value `(fine*5 + 128) >> 8`
together with the stored `fine`. -/
def temperature_pipeline (cal : Calibration) (adc_t : Int) : Int × Int :=
  let t1 : Int := cal.dig_t1
  let t2 : Int := cal.dig_t2
  let t3 : Int := cal.dig_t3
  let var1 := asr32 (mul32 (sub32 (asr32 adc_t 3) (shl32 t1 1)) t2) 11
  let var2 :=
    asr32 (mul32 (asr32 (mul32 (sub32 (asr32 adc_t 4) t1) (sub32 (asr32 adc_t 4) t1)) 12) t3) 14
  let fine := add32 var1 var2
  let t := asr32 (add32 (mul32 fine 5) 128) 8
  (t, fine)

/-- `fn temperature_celsius`: read the 24-bit temperature word, shift right
by 4 (`adc_t >>= 4`), run the compensation arithmetic, store `fine`, return
the result of the final division by `100.0`. -/
def temperature_celsius (s : Bmp280) : Except Error Rat × Bmp280 :=
  match s.read24 Register.TemperatureData with
  | (Except.error e, s) => (Except.error e, s)
  | (Except.ok v, s) =>
  let adc_t := asr32 (wrap32 (v : Int)) 4
  let tf := temperature_pipeline s.calibration adc_t
  let s := { s with fine := tf.2 }
  (Except.ok ((tf.1 : Rat) / 100), s)

/-- The 64-bit integer arithmetic of `fn pressure_kpa` (source lines
392–422) as a function of the calibration words, the shifted ADC word
`adc_p` and the `fine` value: either the division-by-zero error or the
compensated pressure integer `p`. -/
def pressure_pipeline (cal : Calibration) (adc_p : Int) (fine : Int) :
    Except Error Int :=
  let p1 : Int := cal.dig_p1
  let p2 : Int := cal.dig_p2
  let p3 : Int := cal.dig_p3
  let p4 : Int := cal.dig_p4
  let p5 : Int := cal.dig_p5
  let p6 : Int := cal.dig_p6
  let p7 : Int := cal.dig_p7
  let p8 : Int := cal.dig_p8
  let p9 : Int := cal.dig_p9
  let var1 := sub64 fine 128000
  let var2 := mul64 (mul64 var1 var1) p6
  let var2 := add64 var2 (shl64 (mul64 var1 p5) 17)
  let var2 := add64 var2 (shl64 p4 35)
  let var1 := add64 (asr64 (mul64 (mul64 var1 var1) p3) 8) (shl64 (mul64 var1 p2) 12)
  let var1 := asr64 (mul64 (add64 (shl64 1 47) var1) p1) 33
  if var1 = 0 then Except.error (Error.Other ())
  else
    let p : Int := sub64 1048576 adc_p
    let p := div64 (mul64 (sub64 (shl64 p 31) var2) 3125) var1
    let var1 := asr64 (mul64 (mul64 p9 (asr64 p 13)) (asr64 p 13)) 25
    let var2 := asr64 (mul64 p8 p) 19
    let p := add64 (asr64 (add64 (add64 p var1) var2) 8) (shl64 p7 4)
    Except.ok p

/-- `fn pressure_kpa`: first run `temperature_celsius` (to initialise
`fine`), then read the 24-bit pressure word, shift right by 4, run the
64-bit compensation arithmetic on the freshly stored `fine`, and return the
result of the final division by `256000.0`. -/
def pressure_kpa (s : Bmp280) : Except Error Rat × Bmp280 :=
  match s.temperature_celsius with
  | (Except.error e, s) => (Except.error e, s)
  | (Except.ok _, s) =>
  match s.read24 Register.PressureData with
  | (Except.error e, s) => (Except.error e, s)
  | (Except.ok v, s) =>
  let adc_p := asr32 (wrap32 (v : Int)) 4
  match pressure_pipeline s.calibration adc_p s.fine with
  | Except.error e => (Except.error e, s)
  | Except.ok p => (Except.ok ((p : Rat) / 256000), s)

/-- `fn zero`: read the pressure, store it times 1000 as the
ground-pressure baseline, return the baseline. -/
def zero (s : Bmp280) : Except Error Rat × Bmp280 :=
  match s.pressure_kpa with
  | (Except.error e, s) => (Except.error e, s)
  | (Except.ok p, s) =>
  let s := { s with ground_pressure := p * 1000 }
  (Except.ok s.ground_pressure, s)

/-- `fn altitude_m_relative`: read the pressure, convert to Pa, apply the
barometric formula.  The transcendental `f32::powf` is a parameter. -/
def altitude_m_relative (powf : Rat → Rat → Rat) (s : Bmp280)
    (sea_level_pa : Rat) : Except Error Rat × Bmp280 :=
  match s.pressure_kpa with
  | (Except.error e, s) => (Except.error e, s)
  | (Except.ok p, s) =>
  let pressure := p * 1000
  let altitude := 44330 * (1 - powf (pressure / sea_level_pa) (1903 / 10000))
  (Except.ok altitude, s)

/-- `fn altitude_m`: the barometric formula relative to the stored
ground-pressure baseline. -/
def altitude_m (powf : Rat → Rat → Rat) (s : Bmp280) :
    Except Error Rat × Bmp280 :=
  let pressure := s.ground_pressure
  s.altitude_m_relative powf pressure

end Bmp280

/-- `Bmp280Builder::build`: construct the sensor state over an opened bus
device (zeroed calibration, `fine = 0`, builder's ground pressure), run
`begin`, and if the builder's ground pressure is nonzero run `zero`. -/
def Bmp280Builder.build (b : Bmp280Builder) (dev : LinuxI2CDevice) :
    Except Error Bmp280 :=
  let sensor : Bmp280 :=
    { i2c_device := dev
      sensor_id := 0
      calibration := Calibration.default
      fine := 0
      ground_pressure := b.ground_pressure }
  match sensor.begin with
  | (Except.error e, _) => Except.error e
  | (Except.ok _, sensor) =>
  if b.ground_pressure ≠ 0 then
    match sensor.zero with
    | (Except.error e, _) => Except.error e
    | (Except.ok _, sensor) => Except.ok sensor
  else Except.ok sensor

/-! ## The specification's compensation pipelines (§4.4 of the spec)

These are written from the specification's pseudo-code, to be compared with
the embedded source functions above.  All-32-bit-signed and
all-64-bit-signed arithmetic is rendered with the same wrapping helpers. -/

/-- Spec §4.4 `compensate_temperature(raw_t, cal)`: the integer pipeline
`var1 = ((adc>>3 - (T1<<1)) * T2) >> 11`,
`var2 = (((((adc>>4 - T1) * (adc>>4 - T1)) >> 12) * T3)) >> 14`,
`fine = var1 + var2`, scaled temperature `(fine*5 + 128) >> 8`.  Returns
(scaled temperature, fine); `celsius` is the scaled value divided by 100. -/
def spec_compensate_temperature (cal : Calibration) (adc : Int) : Int × Int :=
  let T1 : Int := cal.dig_t1
  let T2 : Int := cal.dig_t2
  let T3 : Int := cal.dig_t3
  let var1 := asr32 (mul32 (sub32 (asr32 adc 3) (shl32 T1 1)) T2) 11
  let var2 := asr32 (mul32 (asr32 (mul32 (sub32 (asr32 adc 4) T1) (sub32 (asr32 adc 4) T1)) 12) T3) 14
  let fine := add32 var1 var2
  (asr32 (add32 (mul32 fine 5) 128) 8, fine)

/-- Spec §4.4: the divisor `var1` of the pressure pipeline after the `P1`
multiplication: `var1 = fine - 128000`,
`var1 = ((var1*var1*P3) >> 8) + ((var1*P2) << 12)`,
`var1 = (((1<<47) + var1) * P1) >> 33`. -/
def spec_pressure_divisor (cal : Calibration) (fine : Int) : Int :=
  let var1 := sub64 fine 128000
  let var1 := add64 (asr64 (mul64 (mul64 var1 var1) cal.dig_p3) 8)
    (shl64 (mul64 var1 cal.dig_p2) 12)
  asr64 (mul64 (add64 (shl64 1 47) var1) cal.dig_p1) 33

/-- Spec §4.4 `compensate_pressure(raw_p, fine, cal)`: the 64-bit pipeline
`var2 = var1*var1*P6 + (var1*P5 << 17) + (P4 << 35)` with
`var1 = fine - 128000`, divisor per `spec_pressure_divisor`,
`p = ((1048576 - raw_p)<<31 - var2) * 3125 / var1`,
`var1b = (P9 * (p>>13) * (p>>13)) >> 25`, `var2b = (P8 * p) >> 19`,
`p = ((p + var1b + var2b) >> 8) + (P7 << 4)`.  Total function; theorems
about it assume the divisor is nonzero (otherwise the spec fails with
DivisionByZero).  `kPa` is `p` divided by 256000. -/
def spec_compensate_pressure (cal : Calibration) (raw_p : Int) (fine : Int) : Int :=
  let var1 := sub64 fine 128000
  let var2 := add64 (add64 (mul64 (mul64 var1 var1) cal.dig_p6)
    (shl64 (mul64 var1 cal.dig_p5) 17)) (shl64 cal.dig_p4 35)
  let divisor := spec_pressure_divisor cal fine
  let p := sub64 1048576 raw_p
  let p := div64 (mul64 (sub64 (shl64 p 31) var2) 3125) divisor
  let var1b := asr64 (mul64 (mul64 cal.dig_p9 (asr64 p 13)) (asr64 p 13)) 25
  let var2b := asr64 (mul64 cal.dig_p8 p) 19
  add64 (asr64 (add64 (add64 p var1b) var2b) 8) (shl64 cal.dig_p7 4)

/-- The `fine` value the spec's temperature pipeline produces. -/
def spec_fine (cal : Calibration) (adc : Int) : Int :=
  (spec_compensate_temperature cal adc).2

/-! ## Concrete states for the datasheet worked example -/

/-- The calibration words of the sensor's published worked example. -/
def calDatasheet : Calibration :=
  { dig_t1 := 27504, dig_t2 := 26435, dig_t3 := -1000,
    dig_p1 := 36477, dig_p2 := -10685, dig_p3 := 3024, dig_p4 := 2855,
    dig_p5 := 140, dig_p6 := -7, dig_p7 := 15500, dig_p8 := -14600,
    dig_p9 := 6000, dig_h1 := 0, dig_h2 := 0, dig_h3 := 0, dig_h4 := 0,
    dig_h5 := 0, dig_h6 := 0 }

/-- A device whose even-indexed reads deliver the temperature register
bytes `0x7EED00` (raw 24-bit word `519888 * 16`) and whose odd-indexed
reads deliver the pressure register bytes `0x655AC0` (`415148 * 16`), so
the extracted 20-bit values are 519888 and 415148 on every cycle. -/
def devDatasheet : LinuxI2CDevice :=
  { replies := fun n =>
      if n % 2 = 0 then Except.ok [0x7E, 0xED, 0x00]
      else Except.ok [0x65, 0x5A, 0xC0]
    count := 0, writes := [] }

/-- A ready sensor session holding the worked example's calibration over
`devDatasheet`. -/
def sDatasheet : Bmp280 :=
  { sensor_id := 0, fine := 0, calibration := calDatasheet,
    i2c_device := devDatasheet, ground_pressure := 0 }

/-! ## Supporting lemmas -/

/-- Every byte of a filled 3-byte buffer is below 256, so the big-endian
value is below `2^24`. -/
lemma be24_fillBuf_lt (bs : List Nat) : be24 (fillBuf 3 bs) < 2 ^ 24 := by
  match bs with
  | [] => decide
  | [a] =>
    have : a % 256 < 256 := Nat.mod_lt _ (by norm_num)
    simp [fillBuf, be24]
    omega
  | [a, b] =>
    have ha : a % 256 < 256 := Nat.mod_lt _ (by norm_num)
    have hb : b % 256 < 256 := Nat.mod_lt _ (by norm_num)
    simp [fillBuf, be24]
    omega
  | a :: b :: c :: rest =>
    have ha : a % 256 < 256 := Nat.mod_lt _ (by norm_num)
    have hb : b % 256 < 256 := Nat.mod_lt _ (by norm_num)
    have hc : c % 256 < 256 := Nat.mod_lt _ (by norm_num)
    simp [fillBuf, be24]
    omega

/-- `as i32` of a value below `2^31` is the identity. -/
lemma wrap32_of_small (v : Nat) (h : v < 2 ^ 31) : wrap32 (v : Int) = (v : Int) := by
  unfold wrap32
  have h1 : (0 : Int) ≤ (v : Int) + 2 ^ 31 := by positivity
  have h2 : (v : Int) + 2 ^ 31 < 2 ^ 32 := by
    have : (v : Int) < 2 ^ 31 := by exact_mod_cast h
    linarith
  rw [Int.emod_eq_of_lt h1 h2]
  ring

/-- Arithmetic shift right of a nonnegative value is natural division. -/
lemma asr32_ofNat (v : Nat) (n : Nat) :
    asr32 (v : Int) n = ((v / 2 ^ n : Nat) : Int) := by
  unfold asr32
  rw [show ((2 : Int) ^ n) = ((2 ^ n : Nat) : Int) by push_cast; ring]
  rw [← Int.ofNat_fdiv]

/-- The source's temperature arithmetic and the spec's pipeline are the
same function. -/
lemma temperature_pipeline_eq_spec :
    Bmp280.temperature_pipeline = spec_compensate_temperature := rfl

/-- Reduction of `temperature_celsius` on a state whose next read delivers
bytes `bt`: the result is the spec pipeline's scaled value over 100, and
the new state has consumed one reply, logged the temperature register
address, and stored the spec's `fine`. -/
lemma temperature_celsius_eq (s : Bmp280) (bt : List Nat)
    (hT : s.i2c_device.replies s.i2c_device.count = Except.ok bt) :
    s.temperature_celsius =
      (Except.ok (((spec_compensate_temperature s.calibration
          ((be24 (fillBuf 3 bt) / 16 : Nat) : Int)).1 : Rat) / 100),
       { s with
         i2c_device := ⟨s.i2c_device.replies, s.i2c_device.count + 1,
           s.i2c_device.writes ++ [[0xFA]]⟩,
         fine := spec_fine s.calibration ((be24 (fillBuf 3 bt) / 16 : Nat) : Int) }) := by
  have hlt : be24 (fillBuf 3 bt) < 2 ^ 31 :=
    lt_trans (be24_fillBuf_lt bt) (by norm_num)
  simp only [Bmp280.temperature_celsius, Bmp280.read24, Bmp280.devWrite,
    Bmp280.devReadBuf, LinuxI2CDevice.busRead, LinuxI2CDevice.busWrite, hT,
    wrap32_of_small _ hlt, asr32_ofNat, temperature_pipeline_eq_spec, spec_fine,
    Register.addr]
  norm_num

/-- The sensor state after a full pressure read cycle on a state whose
next two reads deliver `bt` (temperature) and then the pressure bytes:
two replies consumed, the temperature and pressure register addresses
logged, and the spec's `fine` from `bt` stored. -/
def afterPressureRead (s : Bmp280) (bt : List Nat) : Bmp280 :=
  { s with
    i2c_device := ⟨s.i2c_device.replies, s.i2c_device.count + 2,
      s.i2c_device.writes ++ [[0xFA], [0xF7]]⟩,
    fine := spec_fine s.calibration ((be24 (fillBuf 3 bt) / 16 : Nat) : Int) }

/-- Reduction of `pressure_kpa` on a state whose next two reads deliver
`bt` then `bp`: the temperature path runs first, and the pressure pipeline
consumes the `fine` value just produced from `bt`. -/
lemma pressure_kpa_eq (s : Bmp280) (bt bp : List Nat)
    (hT : s.i2c_device.replies s.i2c_device.count = Except.ok bt)
    (hP : s.i2c_device.replies (s.i2c_device.count + 1) = Except.ok bp) :
    s.pressure_kpa =
      (match Bmp280.pressure_pipeline s.calibration ((be24 (fillBuf 3 bp) / 16 : Nat) : Int)
          (spec_fine s.calibration ((be24 (fillBuf 3 bt) / 16 : Nat) : Int)) with
       | Except.error e => (Except.error e, afterPressureRead s bt)
       | Except.ok p => (Except.ok ((p : Rat) / 256000), afterPressureRead s bt)) := by
  have hltP : be24 (fillBuf 3 bp) < 2 ^ 31 :=
    lt_trans (be24_fillBuf_lt bp) (by norm_num)
  rw [Bmp280.pressure_kpa, temperature_celsius_eq s bt hT]
  simp only [Bmp280.read24, Bmp280.devWrite, Bmp280.devReadBuf,
    LinuxI2CDevice.busRead, LinuxI2CDevice.busWrite, hP,
    wrap32_of_small _ hltP, asr32_ofNat, Register.addr, afterPressureRead]
  rcases hpp : Bmp280.pressure_pipeline s.calibration ((be24 (fillBuf 3 bp) / 16 : Nat) : Int)
      (spec_fine s.calibration ((be24 (fillBuf 3 bt) / 16 : Nat) : Int)) with e | p
  all_goals simp_all

/-- When the spec's divisor is nonzero the source's pressure arithmetic
returns exactly the spec's compensated pressure integer. -/
lemma pressure_pipeline_eq_ok (cal : Calibration) (adc_p fine : Int)
    (hdiv : spec_pressure_divisor cal fine ≠ 0) :
    Bmp280.pressure_pipeline cal adc_p fine =
      Except.ok (spec_compensate_pressure cal adc_p fine) := by
  simp only [Bmp280.pressure_pipeline, spec_compensate_pressure,
    spec_pressure_divisor] at hdiv ⊢
  rw [if_neg hdiv]

/-- When the spec's divisor is zero the source's pressure arithmetic fails
with the generic error. -/
lemma pressure_pipeline_eq_err (cal : Calibration) (adc_p fine : Int)
    (hdiv : spec_pressure_divisor cal fine = 0) :
    Bmp280.pressure_pipeline cal adc_p fine = Except.error (Error.Other ()) := by
  simp only [Bmp280.pressure_pipeline, spec_pressure_divisor] at hdiv ⊢
  rw [if_pos hdiv]

/-- The kPa value a full successful pressure read cycle produces from the
temperature bytes `bt` and pressure bytes `bp`, per the spec pipelines. -/
def spec_kpa (cal : Calibration) (bt bp : List Nat) : Rat :=
  ((spec_compensate_pressure cal ((be24 (fillBuf 3 bp) / 16 : Nat) : Int)
    (spec_fine cal ((be24 (fillBuf 3 bt) / 16 : Nat) : Int)) : Int) : Rat) / 256000

/-- Reduction of a successful `pressure_kpa` run. -/
lemma pressure_kpa_ok (s : Bmp280) (bt bp : List Nat)
    (hT : s.i2c_device.replies s.i2c_device.count = Except.ok bt)
    (hP : s.i2c_device.replies (s.i2c_device.count + 1) = Except.ok bp)
    (hdiv : spec_pressure_divisor s.calibration
      (spec_fine s.calibration ((be24 (fillBuf 3 bt) / 16 : Nat) : Int)) ≠ 0) :
    s.pressure_kpa = (Except.ok (spec_kpa s.calibration bt bp), afterPressureRead s bt) := by
  rw [pressure_kpa_eq s bt bp hT hP, pressure_pipeline_eq_ok _ _ _ hdiv]
  simp [spec_kpa]

/-- Reduction of a successful `zero` run: the measured pressure times 1000
becomes the new ground-pressure baseline. -/
lemma zero_eq (s : Bmp280) (bt bp : List Nat)
    (hT : s.i2c_device.replies s.i2c_device.count = Except.ok bt)
    (hP : s.i2c_device.replies (s.i2c_device.count + 1) = Except.ok bp)
    (hdiv : spec_pressure_divisor s.calibration
      (spec_fine s.calibration ((be24 (fillBuf 3 bt) / 16 : Nat) : Int)) ≠ 0) :
    s.zero = (Except.ok (spec_kpa s.calibration bt bp * 1000),
      { afterPressureRead s bt with
        ground_pressure := spec_kpa s.calibration bt bp * 1000 }) := by
  rw [Bmp280.zero, pressure_kpa_ok s bt bp hT hP hdiv]

/-- Reduction of a successful `altitude_m` run: the barometric formula over
the fresh pressure reading and the stored baseline. -/
lemma altitude_m_eq (powf : Rat → Rat → Rat) (s : Bmp280) (bt bp : List Nat)
    (hT : s.i2c_device.replies s.i2c_device.count = Except.ok bt)
    (hP : s.i2c_device.replies (s.i2c_device.count + 1) = Except.ok bp)
    (hdiv : spec_pressure_divisor s.calibration
      (spec_fine s.calibration ((be24 (fillBuf 3 bt) / 16 : Nat) : Int)) ≠ 0) :
    s.altitude_m powf =
      (Except.ok (44330 * (1 - powf (spec_kpa s.calibration bt bp * 1000 / s.ground_pressure)
        (1903 / 10000))), afterPressureRead s bt) := by
  rw [Bmp280.altitude_m, Bmp280.altitude_m_relative, pressure_kpa_ok s bt bp hT hP hdiv]

/-- Reduction of `begin` on a state whose chip-identity read delivers a
byte other than `0x58`: the generic error, with only the chip-id register
address written and one reply consumed. -/
lemma begin_bad_chipid (s : Bmp280) (bs : List Nat)
    (hrep : s.i2c_device.replies s.i2c_device.count = Except.ok bs)
    (hbad : (fillBuf 1 bs).getD 0 0 ≠ 0x58) :
    s.begin = (Except.error (Error.Other ()),
      { s with i2c_device := ⟨s.i2c_device.replies, s.i2c_device.count + 1,
        s.i2c_device.writes ++ [[0xD0]]⟩ }) := by
  simp only [Bmp280.begin, Bmp280.read8, Bmp280.devWrite, Bmp280.devReadBuf,
    LinuxI2CDevice.busRead, LinuxI2CDevice.busWrite, hrep, Register.addr]
  rw [if_pos hbad]

/-! ## Claim theorems -/

/-- **C1.** With the datasheet calibration `{T1=27504, T2=26435, T3=-1000,
P1=36477, P2=-10685, P3=3024, P4=2855, P5=140, P6=-7, P7=15500, P8=-14600,
P9=6000}` and raw register reads whose extracted 20-bit values are
temperature 519888 and pressure 415148, `temperature_celsius` returns
exactly `2508/100 = 25.08 °C`, and `pressure_kpa` — whose pressure
computation consumes the `fine` value produced by that same temperature
computation — returns `25767233/256000 ≈ 100.65 kPa`; both are within 0.01
of the claimed approximate values. -/
theorem datasheet_roundtrip_temperature_and_pressure :
    (sDatasheet.temperature_celsius).1 = Except.ok (2508 / 100 : Rat)
    ∧ |(2508 / 100 : Rat) - 25.08| < 1 / 100
    ∧ (sDatasheet.pressure_kpa).1 = Except.ok (25767233 / 256000 : Rat)
    ∧ |(25767233 / 256000 : Rat) - 100.65| < 1 / 100 := by
  refine ⟨rfl, by norm_num [abs_lt], rfl, by norm_num [abs_lt]⟩

/-- **C2.** For every register read delivering bytes `bs` (hence every
20-bit raw temperature value `adc = be24(bs) >> 4`) and every calibration,
`temperature_celsius` computes exactly the spec's 32-bit signed integer
pipeline: it returns the integer `(fine*5 + 128) >> 8` divided by 100 (the
only non-integer step), and stores exactly the spec's `fine` value. -/
theorem temperature_path_matches_spec (s : Bmp280) (bs : List Nat) (adc : Nat)
    (h : s.i2c_device.replies s.i2c_device.count = Except.ok bs)
    (hadc : adc = be24 (fillBuf 3 bs) / 16) :
    (s.temperature_celsius).1 =
      Except.ok (((spec_compensate_temperature s.calibration (adc : Int)).1 : Rat) / 100)
    ∧ (s.temperature_celsius).2.fine = spec_fine s.calibration (adc : Int) := by
  have hlt : be24 (fillBuf 3 bs) < 2 ^ 31 :=
    lt_trans (be24_fillBuf_lt bs) (by norm_num)
  subst hadc
  constructor <;>
    simp only [Bmp280.temperature_celsius, Bmp280.read24, Bmp280.devWrite,
      Bmp280.devReadBuf, LinuxI2CDevice.busRead, LinuxI2CDevice.busWrite, h,
      wrap32_of_small _ hlt, asr32_ofNat, spec_fine] <;>
    norm_num [Bmp280.temperature_pipeline, spec_compensate_temperature]

/-- Witness for C2: the datasheet example instantiates the hypotheses. -/
theorem temperature_path_matches_spec_witness :
    (sDatasheet.temperature_celsius).1 =
      Except.ok (((spec_compensate_temperature sDatasheet.calibration (519888 : Int)).1 : Rat) / 100)
    ∧ (sDatasheet.temperature_celsius).2.fine =
      spec_fine sDatasheet.calibration (519888 : Int) :=
  temperature_path_matches_spec sDatasheet [0x7E, 0xED, 0x00] 519888 rfl (by decide)

/-- **C3.** For every 20-bit raw pressure value, every `fine` value and
every calibration whose spec divisor (the `var1` after the `P1`
multiplication) is nonzero, the source's pressure arithmetic equals the
spec's 64-bit signed pipeline; and a full `pressure_kpa` read returns
exactly that pipeline's `p` divided by `256000.0` (the kPa convention),
computed over the freshly produced `fine`. -/
theorem pressure_path_matches_spec (cal : Calibration) (adc_p fine : Int)
    (h0 : 0 ≤ adc_p) (h1 : adc_p < 2 ^ 20)
    (hdiv : spec_pressure_divisor cal fine ≠ 0)
    (s : Bmp280) (bt bp : List Nat)
    (hT : s.i2c_device.replies s.i2c_device.count = Except.ok bt)
    (hP : s.i2c_device.replies (s.i2c_device.count + 1) = Except.ok bp)
    (hdiv2 : spec_pressure_divisor s.calibration
      (spec_fine s.calibration ((be24 (fillBuf 3 bt) / 16 : Nat) : Int)) ≠ 0) :
    Bmp280.pressure_pipeline cal adc_p fine =
      Except.ok (spec_compensate_pressure cal adc_p fine)
    ∧ (s.pressure_kpa).1 = Except.ok
        ((spec_compensate_pressure s.calibration ((be24 (fillBuf 3 bp) / 16 : Nat) : Int)
          (spec_fine s.calibration ((be24 (fillBuf 3 bt) / 16 : Nat) : Int)) : Rat) / 256000) := by
  refine ⟨pressure_pipeline_eq_ok cal adc_p fine hdiv, ?_⟩
  rw [pressure_kpa_ok s bt bp hT hP hdiv2]
  simp [spec_kpa]

/-- Witness for C3: the datasheet example (pressure 415148, fine 128422)
instantiates the hypotheses. -/
theorem pressure_path_matches_spec_witness :
    Bmp280.pressure_pipeline calDatasheet 415148 128422 =
      Except.ok (spec_compensate_pressure calDatasheet 415148 128422) :=
  (pressure_path_matches_spec calDatasheet 415148 128422 (by norm_num) (by norm_num)
    (by decide) sDatasheet [0x7E, 0xED, 0x00] [0x65, 0x5A, 0xC0] rfl rfl (by decide)).1

/-- A session over the datasheet device whose calibration is the all-zero
default (in particular `P1 = 0`). -/
def sZeroCal : Bmp280 :=
  { sDatasheet with calibration := Calibration.default }

/-- **C4.** The pressure arithmetic fails — with the generic error value
the spec names `DivisionByZero`, returning no pressure value — exactly
when the spec divisor `var1 = (((1<<47) + var1) * P1) >> 33` is zero, and
in particular for every input when `P1 = 0`; the failing `pressure_kpa`
read leaves the calibration and the reply stream intact, so the session
stays usable for further reads. -/
theorem pressure_division_by_zero (cal : Calibration) (adc_p fine : Int)
    (s : Bmp280) (bt bp : List Nat)
    (hT : s.i2c_device.replies s.i2c_device.count = Except.ok bt)
    (hP : s.i2c_device.replies (s.i2c_device.count + 1) = Except.ok bp)
    (hdiv0 : spec_pressure_divisor s.calibration
      (spec_fine s.calibration ((be24 (fillBuf 3 bt) / 16 : Nat) : Int)) = 0) :
    (Bmp280.pressure_pipeline cal adc_p fine = Except.error (Error.Other ()) ↔
      spec_pressure_divisor cal fine = 0)
    ∧ (cal.dig_p1 = 0 → Bmp280.pressure_pipeline cal adc_p fine = Except.error (Error.Other ()))
    ∧ (s.pressure_kpa).1 = Except.error (Error.Other ())
    ∧ (s.pressure_kpa).2.calibration = s.calibration
    ∧ (s.pressure_kpa).2.i2c_device.replies = s.i2c_device.replies := by
  have herr := pressure_pipeline_eq_err cal adc_p fine
  refine ⟨⟨?_, herr⟩, ?_, ?_, ?_, ?_⟩
  · intro h
    by_contra hdiv
    rw [pressure_pipeline_eq_ok _ _ _ hdiv] at h
    exact Except.noConfusion h
  · intro hp1
    apply herr
    simp [spec_pressure_divisor, mul64, hp1, wrap64, asr64]
  all_goals
    rw [pressure_kpa_eq s bt bp hT hP, pressure_pipeline_eq_err _ _ _ hdiv0]
  all_goals simp [afterPressureRead]

/-- Witness for C4: the all-zero calibration (P1 = 0) over the datasheet
device instantiates the hypotheses. -/
theorem pressure_division_by_zero_witness :
    Bmp280.pressure_pipeline Calibration.default 415148 128422 = Except.error (Error.Other ())
    ∧ (sZeroCal.pressure_kpa).1 = Except.error (Error.Other ()) :=
  let h := pressure_division_by_zero Calibration.default 415148 128422 sZeroCal
    [0x7E, 0xED, 0x00] [0x65, 0x5A, 0xC0] rfl rfl (by decide)
  ⟨h.2.1 rfl, h.2.2.1⟩

/-- **C5.** Every `pressure_kpa` call performs exactly one temperature
read first — the write log gains the temperature register address and then
the pressure register address, two replies are consumed — the stored
`fine` is the one produced by that temperature computation from the bytes
just read, the returned value is independent of whatever stale `fine` the
state held before the call, and on success the value is computed from the
freshly produced `fine`. -/
theorem pressure_read_refreshes_fine (s : Bmp280) (bt bp : List Nat) (stale : Int)
    (hT : s.i2c_device.replies s.i2c_device.count = Except.ok bt)
    (hP : s.i2c_device.replies (s.i2c_device.count + 1) = Except.ok bp) :
    (s.pressure_kpa).2.i2c_device.writes =
      s.i2c_device.writes ++ [[Register.TemperatureData.addr], [Register.PressureData.addr]]
    ∧ (s.pressure_kpa).2.i2c_device.count = s.i2c_device.count + 2
    ∧ (s.pressure_kpa).2.fine =
        spec_fine s.calibration ((be24 (fillBuf 3 bt) / 16 : Nat) : Int)
    ∧ ({ s with fine := stale } : Bmp280).pressure_kpa.1 = (s.pressure_kpa).1
    ∧ (spec_pressure_divisor s.calibration
        (spec_fine s.calibration ((be24 (fillBuf 3 bt) / 16 : Nat) : Int)) ≠ 0 →
        (s.pressure_kpa).1 = Except.ok (spec_kpa s.calibration bt bp)) := by
  have hmain := pressure_kpa_eq s bt bp hT hP
  have hstale := pressure_kpa_eq ({ s with fine := stale } : Bmp280) bt bp hT hP
  refine ⟨?_, ?_, ?_, ?_, ?_⟩
  · rcases hpp : Bmp280.pressure_pipeline s.calibration ((be24 (fillBuf 3 bp) / 16 : Nat) : Int)
        (spec_fine s.calibration ((be24 (fillBuf 3 bt) / 16 : Nat) : Int)) with e | p <;>
      rw [hpp] at hmain <;> simp [hmain, afterPressureRead, Register.addr]
  · rcases hpp : Bmp280.pressure_pipeline s.calibration ((be24 (fillBuf 3 bp) / 16 : Nat) : Int)
        (spec_fine s.calibration ((be24 (fillBuf 3 bt) / 16 : Nat) : Int)) with e | p <;>
      rw [hpp] at hmain <;> simp [hmain, afterPressureRead]
  · rcases hpp : Bmp280.pressure_pipeline s.calibration ((be24 (fillBuf 3 bp) / 16 : Nat) : Int)
        (spec_fine s.calibration ((be24 (fillBuf 3 bt) / 16 : Nat) : Int)) with e | p <;>
      rw [hpp] at hmain <;> simp [hmain, afterPressureRead]
  · rcases hpp : Bmp280.pressure_pipeline s.calibration ((be24 (fillBuf 3 bp) / 16 : Nat) : Int)
        (spec_fine s.calibration ((be24 (fillBuf 3 bt) / 16 : Nat) : Int)) with e | p <;>
      rw [hpp] at hmain <;> rw [hpp] at hstale <;> simp [hmain, hstale]
  · intro hdiv
    rw [pressure_kpa_ok s bt bp hT hP hdiv]

/-- Witness for C5: the datasheet session with a stale `fine` of 12345. -/
theorem pressure_read_refreshes_fine_witness :
    (sDatasheet.pressure_kpa).2.i2c_device.count = sDatasheet.i2c_device.count + 2
    ∧ ({ sDatasheet with fine := 12345 } : Bmp280).pressure_kpa.1 =
        (sDatasheet.pressure_kpa).1 :=
  let h := pressure_read_refreshes_fine sDatasheet [0x7E, 0xED, 0x00] [0x65, 0x5A, 0xC0]
    12345 rfl rfl
  ⟨h.2.1, h.2.2.2.1⟩

/-- **C6.** If the chip-identity read during initialization yields any
byte other than `0x58`, `begin` fails with the generic error the spec
names `IdentityMismatch`, having performed no calibration read and no
control-register write (the write log gains only the chip-id register
address, one reply is consumed, the calibration is untouched), and
`build()` over such a device returns that error, producing no sensor
session. -/
theorem identity_mismatch_fails_init (s : Bmp280) (bs : List Nat)
    (b : Bmp280Builder) (dev : LinuxI2CDevice) (bs' : List Nat)
    (hrep : s.i2c_device.replies s.i2c_device.count = Except.ok bs)
    (hbad : (fillBuf 1 bs).getD 0 0 ≠ 0x58)
    (hrep' : dev.replies dev.count = Except.ok bs')
    (hbad' : (fillBuf 1 bs').getD 0 0 ≠ 0x58) :
    (s.begin).1 = Except.error (Error.Other ())
    ∧ (s.begin).2.calibration = s.calibration
    ∧ (s.begin).2.i2c_device.writes = s.i2c_device.writes ++ [[Register.ChipId.addr]]
    ∧ (s.begin).2.i2c_device.count = s.i2c_device.count + 1
    ∧ b.build dev = Except.error (Error.Other ()) := by
  have h := begin_bad_chipid s bs hrep hbad
  refine ⟨by rw [h], by rw [h], by rw [h]; simp [Register.addr], by rw [h], ?_⟩
  rw [Bmp280Builder.build]
  rw [begin_bad_chipid
    ({ i2c_device := dev, sensor_id := 0, calibration := Calibration.default,
       fine := 0, ground_pressure := b.ground_pressure } : Bmp280) bs' hrep' hbad']

/-- A device answering every read with the single byte `0x42` (not the
BMP280 identity `0x58`). -/
def devBadChip : LinuxI2CDevice :=
  { replies := fun _ => Except.ok [0x42], count := 0, writes := [] }

/-- The datasheet session over the bad-identity device. -/
def sBadChip : Bmp280 :=
  { sDatasheet with i2c_device := devBadChip }

/-- Witness for C6: a device whose chip-id byte is `0x42`. -/
theorem identity_mismatch_fails_init_witness :
    (sBadChip.begin).1 = Except.error (Error.Other ())
    ∧ Bmp280Builder.new.build devBadChip = Except.error (Error.Other ()) :=
  let h := identity_mismatch_fails_init sBadChip [0x42] Bmp280Builder.new devBadChip
    [0x42] rfl (by decide) rfl (by decide)
  ⟨h.1, h.2.2.2.2⟩

/-- **C7.** After a successful `zero()`, an immediately following
`altitude()` over an unchanged pressure reading returns exactly 0 metres
(within the claimed 1e-3 tolerance): `zero()` stores the measured pressure
times 1000 as the baseline, and `altitude()` evaluates
`44330 * (1 - powf (pressure_pa / baseline) 0.1903)` with `pressure_pa`
equal to that baseline, where `powf 1 0.1903 = 1`. -/
theorem zero_then_altitude_is_zero (powf : Rat → Rat → Rat) (s : Bmp280) (bt bp : List Nat)
    (hpow : powf 1 (1903 / 10000) = 1)
    (hT : s.i2c_device.replies s.i2c_device.count = Except.ok bt)
    (hP : s.i2c_device.replies (s.i2c_device.count + 1) = Except.ok bp)
    (hT2 : s.i2c_device.replies (s.i2c_device.count + 2) = Except.ok bt)
    (hP2 : s.i2c_device.replies (s.i2c_device.count + 3) = Except.ok bp)
    (hdiv : spec_pressure_divisor s.calibration
      (spec_fine s.calibration ((be24 (fillBuf 3 bt) / 16 : Nat) : Int)) ≠ 0)
    (hkpa : spec_kpa s.calibration bt bp ≠ 0) :
    (s.zero).1 = Except.ok (spec_kpa s.calibration bt bp * 1000)
    ∧ (((s.zero).2).altitude_m powf).1 = Except.ok 0
    ∧ |(0 : Rat)| < 1 / 1000 := by
  have hz := zero_eq s bt bp hT hP hdiv
  refine ⟨by rw [hz], ?_, by norm_num⟩
  rw [hz]
  rw [altitude_m_eq powf
    ({ afterPressureRead s bt with
       ground_pressure := spec_kpa s.calibration bt bp * 1000 } : Bmp280) bt bp hT2 hP2 hdiv]
  simp only [afterPressureRead]
  have hg : spec_kpa s.calibration bt bp * 1000 ≠ 0 := by
    intro hc
    apply hkpa
    have := mul_eq_zero.mp hc
    rcases this with h' | h'
    · exact h'
    · norm_num at h'
  rw [div_self hg, hpow]
  norm_num

/-- The constant-one stand-in for `powf`, satisfying `powf 1 e = 1`. -/
def powfOne : Rat → Rat → Rat := fun _ _ => 1

/-- Witness for C7: the datasheet session, whose device repeats the same
temperature/pressure bytes on every cycle. -/
theorem zero_then_altitude_is_zero_witness :
    (sDatasheet.zero).1 =
      Except.ok (spec_kpa sDatasheet.calibration [0x7E, 0xED, 0x00] [0x65, 0x5A, 0xC0] * 1000)
    ∧ (((sDatasheet.zero).2).altitude_m powfOne).1 = Except.ok 0 :=
  let h := zero_then_altitude_is_zero powfOne sDatasheet [0x7E, 0xED, 0x00]
    [0x65, 0x5A, 0xC0] rfl rfl rfl rfl rfl (by decide)
    (by
      have hp : spec_compensate_pressure sDatasheet.calibration
          (((be24 (fillBuf 3 [0x65, 0x5A, 0xC0]) : Nat) : Int) / 16)
          (spec_fine sDatasheet.calibration
            (((be24 (fillBuf 3 [0x7E, 0xED, 0x00]) : Nat) : Int) / 16)) = 25767233 := by
        decide
      simp [spec_kpa, hp])
  ⟨h.1, h.2.1⟩

/-- Reduction of a fully successful `read_coefficients` run: twelve
sequential little-endian reads at `0x88 .. 0x9E`, `T1`/`P1` unsigned, the
rest signed. -/
lemma read_coefficients_ok (s : Bmp280) (l0 l1 l2 l3 l4 l5 l6 l7 l8 l9 l10 l11 : List Nat)
    (h0 : s.i2c_device.replies s.i2c_device.count = Except.ok l0)
    (h1 : s.i2c_device.replies (s.i2c_device.count + 1) = Except.ok l1)
    (h2 : s.i2c_device.replies (s.i2c_device.count + 2) = Except.ok l2)
    (h3 : s.i2c_device.replies (s.i2c_device.count + 3) = Except.ok l3)
    (h4 : s.i2c_device.replies (s.i2c_device.count + 4) = Except.ok l4)
    (h5 : s.i2c_device.replies (s.i2c_device.count + 5) = Except.ok l5)
    (h6 : s.i2c_device.replies (s.i2c_device.count + 6) = Except.ok l6)
    (h7 : s.i2c_device.replies (s.i2c_device.count + 7) = Except.ok l7)
    (h8 : s.i2c_device.replies (s.i2c_device.count + 8) = Except.ok l8)
    (h9 : s.i2c_device.replies (s.i2c_device.count + 9) = Except.ok l9)
    (h10 : s.i2c_device.replies (s.i2c_device.count + 10) = Except.ok l10)
    (h11 : s.i2c_device.replies (s.i2c_device.count + 11) = Except.ok l11) :
    s.read_coefficients = (Except.ok (),
      { s with
        i2c_device := ⟨s.i2c_device.replies, s.i2c_device.count + 12,
          s.i2c_device.writes ++
            [[0x88], [0x8A], [0x8C], [0x8E], [0x90], [0x92], [0x94], [0x96],
             [0x98], [0x9A], [0x9C], [0x9E]]⟩,
        calibration := { s.calibration with
          dig_t1 := le16 (fillBuf 2 l0),
          dig_t2 := toI16 (le16 (fillBuf 2 l1)),
          dig_t3 := toI16 (le16 (fillBuf 2 l2)),
          dig_p1 := le16 (fillBuf 2 l3),
          dig_p2 := toI16 (le16 (fillBuf 2 l4)),
          dig_p3 := toI16 (le16 (fillBuf 2 l5)),
          dig_p4 := toI16 (le16 (fillBuf 2 l6)),
          dig_p5 := toI16 (le16 (fillBuf 2 l7)),
          dig_p6 := toI16 (le16 (fillBuf 2 l8)),
          dig_p7 := toI16 (le16 (fillBuf 2 l9)),
          dig_p8 := toI16 (le16 (fillBuf 2 l10)),
          dig_p9 := toI16 (le16 (fillBuf 2 l11)) } }) := by
  simp [Bmp280.read_coefficients, Bmp280.read16le, Bmp280.read16les,
    Bmp280.devWrite, Bmp280.devReadBuf, LinuxI2CDevice.busRead,
    LinuxI2CDevice.busWrite, Register.addr, h0, h1, h2, h3, h4, h5, h6, h7,
    h8, h9, h10, h11, add_assoc]

/-- If the `j`-th of the twelve calibration reads fails (the earlier ones
succeeding), `read_coefficients` fails with that transport error wrapped in
`Error.I2cError`, unchanged. -/
lemma read_coefficients_err (s : Bmp280) (j : Nat) (e : LinuxI2CError)
    (hj : j < 12)
    (hok : ∀ i, i < j → ∃ li, s.i2c_device.replies (s.i2c_device.count + i) = Except.ok li)
    (herr : s.i2c_device.replies (s.i2c_device.count + j) = Except.error e) :
    (s.read_coefficients).1 = Except.error (Error.I2cError e) := by
  interval_cases j
  · rw [Nat.add_zero] at herr
    simp [Bmp280.read_coefficients, Bmp280.read16le, Bmp280.read16les,
      Bmp280.devWrite, Bmp280.devReadBuf, LinuxI2CDevice.busRead,
      LinuxI2CDevice.busWrite, herr]
  · obtain ⟨l0, h0⟩ := hok 0 (by norm_num)
    rw [Nat.add_zero] at h0
    simp [Bmp280.read_coefficients, Bmp280.read16le, Bmp280.read16les,
      Bmp280.devWrite, Bmp280.devReadBuf, LinuxI2CDevice.busRead,
      LinuxI2CDevice.busWrite, h0, herr, add_assoc]
  · obtain ⟨l0, h0⟩ := hok 0 (by norm_num)
    obtain ⟨l1, h1⟩ := hok 1 (by norm_num)
    rw [Nat.add_zero] at h0
    simp [Bmp280.read_coefficients, Bmp280.read16le, Bmp280.read16les,
      Bmp280.devWrite, Bmp280.devReadBuf, LinuxI2CDevice.busRead,
      LinuxI2CDevice.busWrite, h0, h1, herr, add_assoc]
  · obtain ⟨l0, h0⟩ := hok 0 (by norm_num)
    obtain ⟨l1, h1⟩ := hok 1 (by norm_num)
    obtain ⟨l2, h2⟩ := hok 2 (by norm_num)
    rw [Nat.add_zero] at h0
    simp [Bmp280.read_coefficients, Bmp280.read16le, Bmp280.read16les,
      Bmp280.devWrite, Bmp280.devReadBuf, LinuxI2CDevice.busRead,
      LinuxI2CDevice.busWrite, h0, h1, h2, herr, add_assoc]
  · obtain ⟨l0, h0⟩ := hok 0 (by norm_num)
    obtain ⟨l1, h1⟩ := hok 1 (by norm_num)
    obtain ⟨l2, h2⟩ := hok 2 (by norm_num)
    obtain ⟨l3, h3⟩ := hok 3 (by norm_num)
    rw [Nat.add_zero] at h0
    simp [Bmp280.read_coefficients, Bmp280.read16le, Bmp280.read16les,
      Bmp280.devWrite, Bmp280.devReadBuf, LinuxI2CDevice.busRead,
      LinuxI2CDevice.busWrite, h0, h1, h2, h3, herr, add_assoc]
  · obtain ⟨l0, h0⟩ := hok 0 (by norm_num)
    obtain ⟨l1, h1⟩ := hok 1 (by norm_num)
    obtain ⟨l2, h2⟩ := hok 2 (by norm_num)
    obtain ⟨l3, h3⟩ := hok 3 (by norm_num)
    obtain ⟨l4, h4⟩ := hok 4 (by norm_num)
    rw [Nat.add_zero] at h0
    simp [Bmp280.read_coefficients, Bmp280.read16le, Bmp280.read16les,
      Bmp280.devWrite, Bmp280.devReadBuf, LinuxI2CDevice.busRead,
      LinuxI2CDevice.busWrite, h0, h1, h2, h3, h4, herr, add_assoc]
  · obtain ⟨l0, h0⟩ := hok 0 (by norm_num)
    obtain ⟨l1, h1⟩ := hok 1 (by norm_num)
    obtain ⟨l2, h2⟩ := hok 2 (by norm_num)
    obtain ⟨l3, h3⟩ := hok 3 (by norm_num)
    obtain ⟨l4, h4⟩ := hok 4 (by norm_num)
    obtain ⟨l5, h5⟩ := hok 5 (by norm_num)
    rw [Nat.add_zero] at h0
    simp [Bmp280.read_coefficients, Bmp280.read16le, Bmp280.read16les,
      Bmp280.devWrite, Bmp280.devReadBuf, LinuxI2CDevice.busRead,
      LinuxI2CDevice.busWrite, h0, h1, h2, h3, h4, h5, herr, add_assoc]
  · obtain ⟨l0, h0⟩ := hok 0 (by norm_num)
    obtain ⟨l1, h1⟩ := hok 1 (by norm_num)
    obtain ⟨l2, h2⟩ := hok 2 (by norm_num)
    obtain ⟨l3, h3⟩ := hok 3 (by norm_num)
    obtain ⟨l4, h4⟩ := hok 4 (by norm_num)
    obtain ⟨l5, h5⟩ := hok 5 (by norm_num)
    obtain ⟨l6, h6⟩ := hok 6 (by norm_num)
    rw [Nat.add_zero] at h0
    simp [Bmp280.read_coefficients, Bmp280.read16le, Bmp280.read16les,
      Bmp280.devWrite, Bmp280.devReadBuf, LinuxI2CDevice.busRead,
      LinuxI2CDevice.busWrite, h0, h1, h2, h3, h4, h5, h6, herr, add_assoc]
  · obtain ⟨l0, h0⟩ := hok 0 (by norm_num)
    obtain ⟨l1, h1⟩ := hok 1 (by norm_num)
    obtain ⟨l2, h2⟩ := hok 2 (by norm_num)
    obtain ⟨l3, h3⟩ := hok 3 (by norm_num)
    obtain ⟨l4, h4⟩ := hok 4 (by norm_num)
    obtain ⟨l5, h5⟩ := hok 5 (by norm_num)
    obtain ⟨l6, h6⟩ := hok 6 (by norm_num)
    obtain ⟨l7, h7⟩ := hok 7 (by norm_num)
    rw [Nat.add_zero] at h0
    simp [Bmp280.read_coefficients, Bmp280.read16le, Bmp280.read16les,
      Bmp280.devWrite, Bmp280.devReadBuf, LinuxI2CDevice.busRead,
      LinuxI2CDevice.busWrite, h0, h1, h2, h3, h4, h5, h6, h7, herr, add_assoc]
  · obtain ⟨l0, h0⟩ := hok 0 (by norm_num)
    obtain ⟨l1, h1⟩ := hok 1 (by norm_num)
    obtain ⟨l2, h2⟩ := hok 2 (by norm_num)
    obtain ⟨l3, h3⟩ := hok 3 (by norm_num)
    obtain ⟨l4, h4⟩ := hok 4 (by norm_num)
    obtain ⟨l5, h5⟩ := hok 5 (by norm_num)
    obtain ⟨l6, h6⟩ := hok 6 (by norm_num)
    obtain ⟨l7, h7⟩ := hok 7 (by norm_num)
    obtain ⟨l8, h8⟩ := hok 8 (by norm_num)
    rw [Nat.add_zero] at h0
    simp [Bmp280.read_coefficients, Bmp280.read16le, Bmp280.read16les,
      Bmp280.devWrite, Bmp280.devReadBuf, LinuxI2CDevice.busRead,
      LinuxI2CDevice.busWrite, h0, h1, h2, h3, h4, h5, h6, h7, h8, herr, add_assoc]
  · obtain ⟨l0, h0⟩ := hok 0 (by norm_num)
    obtain ⟨l1, h1⟩ := hok 1 (by norm_num)
    obtain ⟨l2, h2⟩ := hok 2 (by norm_num)
    obtain ⟨l3, h3⟩ := hok 3 (by norm_num)
    obtain ⟨l4, h4⟩ := hok 4 (by norm_num)
    obtain ⟨l5, h5⟩ := hok 5 (by norm_num)
    obtain ⟨l6, h6⟩ := hok 6 (by norm_num)
    obtain ⟨l7, h7⟩ := hok 7 (by norm_num)
    obtain ⟨l8, h8⟩ := hok 8 (by norm_num)
    obtain ⟨l9, h9⟩ := hok 9 (by norm_num)
    rw [Nat.add_zero] at h0
    simp [Bmp280.read_coefficients, Bmp280.read16le, Bmp280.read16les,
      Bmp280.devWrite, Bmp280.devReadBuf, LinuxI2CDevice.busRead,
      LinuxI2CDevice.busWrite, h0, h1, h2, h3, h4, h5, h6, h7, h8, h9, herr, add_assoc]
  · obtain ⟨l0, h0⟩ := hok 0 (by norm_num)
    obtain ⟨l1, h1⟩ := hok 1 (by norm_num)
    obtain ⟨l2, h2⟩ := hok 2 (by norm_num)
    obtain ⟨l3, h3⟩ := hok 3 (by norm_num)
    obtain ⟨l4, h4⟩ := hok 4 (by norm_num)
    obtain ⟨l5, h5⟩ := hok 5 (by norm_num)
    obtain ⟨l6, h6⟩ := hok 6 (by norm_num)
    obtain ⟨l7, h7⟩ := hok 7 (by norm_num)
    obtain ⟨l8, h8⟩ := hok 8 (by norm_num)
    obtain ⟨l9, h9⟩ := hok 9 (by norm_num)
    obtain ⟨l10, h10⟩ := hok 10 (by norm_num)
    rw [Nat.add_zero] at h0
    simp [Bmp280.read_coefficients, Bmp280.read16le, Bmp280.read16les,
      Bmp280.devWrite, Bmp280.devReadBuf, LinuxI2CDevice.busRead,
      LinuxI2CDevice.busWrite, h0, h1, h2, h3, h4, h5, h6, h7, h8, h9, h10,
      herr, add_assoc]

/-- **C8.** A successful calibration load issues exactly 12 sequential
little-endian 16-bit reads in the order T1, T2, T3, P1..P9 at the fixed
register addresses `0x88` through `0x9E` (the write log gains exactly those
addresses in order, 12 replies are consumed), populating `T1` and `P1`
unsigned and every other field signed; and if any underlying transport
read fails, the load fails with that transport error propagated unchanged
(wrapped by the `From` conversion), with no retry. -/
theorem calibration_load_sequence (s : Bmp280)
    (l0 l1 l2 l3 l4 l5 l6 l7 l8 l9 l10 l11 : List Nat)
    (h0 : s.i2c_device.replies s.i2c_device.count = Except.ok l0)
    (h1 : s.i2c_device.replies (s.i2c_device.count + 1) = Except.ok l1)
    (h2 : s.i2c_device.replies (s.i2c_device.count + 2) = Except.ok l2)
    (h3 : s.i2c_device.replies (s.i2c_device.count + 3) = Except.ok l3)
    (h4 : s.i2c_device.replies (s.i2c_device.count + 4) = Except.ok l4)
    (h5 : s.i2c_device.replies (s.i2c_device.count + 5) = Except.ok l5)
    (h6 : s.i2c_device.replies (s.i2c_device.count + 6) = Except.ok l6)
    (h7 : s.i2c_device.replies (s.i2c_device.count + 7) = Except.ok l7)
    (h8 : s.i2c_device.replies (s.i2c_device.count + 8) = Except.ok l8)
    (h9 : s.i2c_device.replies (s.i2c_device.count + 9) = Except.ok l9)
    (h10 : s.i2c_device.replies (s.i2c_device.count + 10) = Except.ok l10)
    (h11 : s.i2c_device.replies (s.i2c_device.count + 11) = Except.ok l11) :
    (s.read_coefficients).1 = Except.ok ()
    ∧ (s.read_coefficients).2.i2c_device.writes = s.i2c_device.writes ++
        [[0x88], [0x8A], [0x8C], [0x8E], [0x90], [0x92], [0x94], [0x96],
         [0x98], [0x9A], [0x9C], [0x9E]]
    ∧ (s.read_coefficients).2.i2c_device.count = s.i2c_device.count + 12
    ∧ (s.read_coefficients).2.calibration = { s.calibration with
        dig_t1 := le16 (fillBuf 2 l0),
        dig_t2 := toI16 (le16 (fillBuf 2 l1)),
        dig_t3 := toI16 (le16 (fillBuf 2 l2)),
        dig_p1 := le16 (fillBuf 2 l3),
        dig_p2 := toI16 (le16 (fillBuf 2 l4)),
        dig_p3 := toI16 (le16 (fillBuf 2 l5)),
        dig_p4 := toI16 (le16 (fillBuf 2 l6)),
        dig_p5 := toI16 (le16 (fillBuf 2 l7)),
        dig_p6 := toI16 (le16 (fillBuf 2 l8)),
        dig_p7 := toI16 (le16 (fillBuf 2 l9)),
        dig_p8 := toI16 (le16 (fillBuf 2 l10)),
        dig_p9 := toI16 (le16 (fillBuf 2 l11)) }
    ∧ (∀ (t : Bmp280) (j : Nat) (e : LinuxI2CError), j < 12 →
        (∀ i, i < j → ∃ li, t.i2c_device.replies (t.i2c_device.count + i) = Except.ok li) →
        t.i2c_device.replies (t.i2c_device.count + j) = Except.error e →
        (t.read_coefficients).1 = Except.error (Error.I2cError e)) := by
  have hok := read_coefficients_ok s l0 l1 l2 l3 l4 l5 l6 l7 l8 l9 l10 l11
    h0 h1 h2 h3 h4 h5 h6 h7 h8 h9 h10 h11
  exact ⟨by rw [hok], by rw [hok], by rw [hok], by rw [hok],
    fun t j e hj hoks herr => read_coefficients_err t j e hj hoks herr⟩

/-- Witness for C8: the datasheet device supplies twelve successful
replies. -/
theorem calibration_load_sequence_witness :
    (sDatasheet.read_coefficients).1 = Except.ok ()
    ∧ (sDatasheet.read_coefficients).2.i2c_device.count =
        sDatasheet.i2c_device.count + 12 :=
  let h := calibration_load_sequence sDatasheet
    [0x7E, 0xED, 0x00] [0x65, 0x5A, 0xC0] [0x7E, 0xED, 0x00] [0x65, 0x5A, 0xC0]
    [0x7E, 0xED, 0x00] [0x65, 0x5A, 0xC0] [0x7E, 0xED, 0x00] [0x65, 0x5A, 0xC0]
    [0x7E, 0xED, 0x00] [0x65, 0x5A, 0xC0] [0x7E, 0xED, 0x00] [0x65, 0x5A, 0xC0]
    rfl rfl rfl rfl rfl rfl rfl rfl rfl rfl rfl rfl
  ⟨h.1, h.2.2.1⟩

/-- Reduction of a fully successful `begin` run: identity check, the
twelve calibration reads, then the control-register write `0x3F`. -/
lemma begin_ok (s : Bmp280) (bc l0 l1 l2 l3 l4 l5 l6 l7 l8 l9 l10 l11 : List Nat)
    (hc : s.i2c_device.replies s.i2c_device.count = Except.ok bc)
    (hb : (fillBuf 1 bc).getD 0 0 = 0x58)
    (h0 : s.i2c_device.replies (s.i2c_device.count + 1) = Except.ok l0)
    (h1 : s.i2c_device.replies (s.i2c_device.count + 2) = Except.ok l1)
    (h2 : s.i2c_device.replies (s.i2c_device.count + 3) = Except.ok l2)
    (h3 : s.i2c_device.replies (s.i2c_device.count + 4) = Except.ok l3)
    (h4 : s.i2c_device.replies (s.i2c_device.count + 5) = Except.ok l4)
    (h5 : s.i2c_device.replies (s.i2c_device.count + 6) = Except.ok l5)
    (h6 : s.i2c_device.replies (s.i2c_device.count + 7) = Except.ok l6)
    (h7 : s.i2c_device.replies (s.i2c_device.count + 8) = Except.ok l7)
    (h8 : s.i2c_device.replies (s.i2c_device.count + 9) = Except.ok l8)
    (h9 : s.i2c_device.replies (s.i2c_device.count + 10) = Except.ok l9)
    (h10 : s.i2c_device.replies (s.i2c_device.count + 11) = Except.ok l10)
    (h11 : s.i2c_device.replies (s.i2c_device.count + 12) = Except.ok l11) :
    s.begin = (Except.ok (),
      { s with
        i2c_device := ⟨s.i2c_device.replies, s.i2c_device.count + 13,
          s.i2c_device.writes ++
            [[0xD0], [0x88], [0x8A], [0x8C], [0x8E], [0x90], [0x92], [0x94],
             [0x96], [0x98], [0x9A], [0x9C], [0x9E], [0xF4, 0x3F]]⟩,
        calibration := { s.calibration with
          dig_t1 := le16 (fillBuf 2 l0),
          dig_t2 := toI16 (le16 (fillBuf 2 l1)),
          dig_t3 := toI16 (le16 (fillBuf 2 l2)),
          dig_p1 := le16 (fillBuf 2 l3),
          dig_p2 := toI16 (le16 (fillBuf 2 l4)),
          dig_p3 := toI16 (le16 (fillBuf 2 l5)),
          dig_p4 := toI16 (le16 (fillBuf 2 l6)),
          dig_p5 := toI16 (le16 (fillBuf 2 l7)),
          dig_p6 := toI16 (le16 (fillBuf 2 l8)),
          dig_p7 := toI16 (le16 (fillBuf 2 l9)),
          dig_p8 := toI16 (le16 (fillBuf 2 l10)),
          dig_p9 := toI16 (le16 (fillBuf 2 l11)) } }) := by
  simp [Bmp280.begin, Bmp280.read8, Bmp280.read_coefficients, Bmp280.read16le,
    Bmp280.read16les, Bmp280.write8, Bmp280.devWrite, Bmp280.devReadBuf,
    LinuxI2CDevice.busRead, LinuxI2CDevice.busWrite, Register.addr, hc, hb,
    h0, h1, h2, h3, h4, h5, h6, h7, h8, h9, h10, h11, add_assoc]
  simpa using hb

/-- The calibration record `build` holds after a successful load of the
twelve reply words (over the zeroed default). -/
def loadedCalibration (l0 l1 l2 l3 l4 l5 l6 l7 l8 l9 l10 l11 : List Nat) : Calibration :=
  { Calibration.default with
    dig_t1 := le16 (fillBuf 2 l0),
    dig_t2 := toI16 (le16 (fillBuf 2 l1)),
    dig_t3 := toI16 (le16 (fillBuf 2 l2)),
    dig_p1 := le16 (fillBuf 2 l3),
    dig_p2 := toI16 (le16 (fillBuf 2 l4)),
    dig_p3 := toI16 (le16 (fillBuf 2 l5)),
    dig_p4 := toI16 (le16 (fillBuf 2 l6)),
    dig_p5 := toI16 (le16 (fillBuf 2 l7)),
    dig_p6 := toI16 (le16 (fillBuf 2 l8)),
    dig_p7 := toI16 (le16 (fillBuf 2 l9)),
    dig_p8 := toI16 (le16 (fillBuf 2 l10)),
    dig_p9 := toI16 (le16 (fillBuf 2 l11)) }

/-- Behaviour of `build` once `begin` has succeeded with post-state `s1`:
with a nonzero builder ground pressure, `zero` runs and its baseline
replaces the supplied value; with the zero default, the sensor is returned
as-is and no further device interaction happens. -/
lemma build_after_begin (b : Bmp280Builder) (dev : LinuxI2CDevice) (s1 : Bmp280)
    (hbegin : ({ i2c_device := dev, sensor_id := 0, calibration := Calibration.default,
                 fine := 0, ground_pressure := b.ground_pressure } : Bmp280).begin
      = (Except.ok (), s1))
    (bt bp : List Nat)
    (hT : s1.i2c_device.replies s1.i2c_device.count = Except.ok bt)
    (hP : s1.i2c_device.replies (s1.i2c_device.count + 1) = Except.ok bp)
    (hdiv : spec_pressure_divisor s1.calibration
      (spec_fine s1.calibration ((be24 (fillBuf 3 bt) / 16 : Nat) : Int)) ≠ 0) :
    (b.ground_pressure ≠ 0 → b.build dev = Except.ok
      ({ afterPressureRead s1 bt with
         ground_pressure := spec_kpa s1.calibration bt bp * 1000 } : Bmp280))
    ∧ (b.ground_pressure = 0 → b.build dev = Except.ok s1) := by
  rw [Bmp280Builder.build, hbegin]
  dsimp only
  constructor
  · intro hne
    rw [if_pos hne, zero_eq s1 bt bp hT hP hdiv]
  · intro h0
    rw [if_neg (by simp [h0])]

/-- **C9.** Over a device that answers the full initialization sequence,
if the builder's `ground_pressure` option is nonzero then `build()`
invokes `zero()` automatically (two further reads happen, count `+15`,
and the measured baseline replaces the supplied initial value); if it is
left at the default of zero, no automatic zeroing occurs (no reads beyond
initialization, count `+13`) and the session's baseline is the supplied
value `0`. -/
theorem builder_ground_pressure_zeroing (b : Bmp280Builder) (dev : LinuxI2CDevice)
    (bc l0 l1 l2 l3 l4 l5 l6 l7 l8 l9 l10 l11 bt bp : List Nat)
    (hc : dev.replies dev.count = Except.ok bc)
    (hb : (fillBuf 1 bc).getD 0 0 = 0x58)
    (h0 : dev.replies (dev.count + 1) = Except.ok l0)
    (h1 : dev.replies (dev.count + 2) = Except.ok l1)
    (h2 : dev.replies (dev.count + 3) = Except.ok l2)
    (h3 : dev.replies (dev.count + 4) = Except.ok l3)
    (h4 : dev.replies (dev.count + 5) = Except.ok l4)
    (h5 : dev.replies (dev.count + 6) = Except.ok l5)
    (h6 : dev.replies (dev.count + 7) = Except.ok l6)
    (h7 : dev.replies (dev.count + 8) = Except.ok l7)
    (h8 : dev.replies (dev.count + 9) = Except.ok l8)
    (h9 : dev.replies (dev.count + 10) = Except.ok l9)
    (h10 : dev.replies (dev.count + 11) = Except.ok l10)
    (h11 : dev.replies (dev.count + 12) = Except.ok l11)
    (hT : dev.replies (dev.count + 13) = Except.ok bt)
    (hP : dev.replies (dev.count + 14) = Except.ok bp)
    (hdiv : spec_pressure_divisor (loadedCalibration l0 l1 l2 l3 l4 l5 l6 l7 l8 l9 l10 l11)
      (spec_fine (loadedCalibration l0 l1 l2 l3 l4 l5 l6 l7 l8 l9 l10 l11)
        ((be24 (fillBuf 3 bt) / 16 : Nat) : Int)) ≠ 0) :
    (b.ground_pressure ≠ 0 → ∃ sens, b.build dev = Except.ok sens
      ∧ sens.ground_pressure =
          spec_kpa (loadedCalibration l0 l1 l2 l3 l4 l5 l6 l7 l8 l9 l10 l11) bt bp * 1000
      ∧ sens.i2c_device.count = dev.count + 15)
    ∧ (b.ground_pressure = 0 → ∃ sens, b.build dev = Except.ok sens
      ∧ sens.ground_pressure = 0
      ∧ sens.i2c_device.count = dev.count + 13) := by
  have hbegin := begin_ok
    ({ i2c_device := dev, sensor_id := 0, calibration := Calibration.default,
       fine := 0, ground_pressure := b.ground_pressure } : Bmp280)
    bc l0 l1 l2 l3 l4 l5 l6 l7 l8 l9 l10 l11 hc hb h0 h1 h2 h3 h4 h5 h6 h7 h8 h9 h10 h11
  have hmain := build_after_begin b dev _ hbegin bt bp hT hP
    (by simpa [loadedCalibration, Calibration.default] using hdiv)
  constructor
  · intro hne
    refine ⟨_, hmain.1 hne, ?_, ?_⟩
    · simp [afterPressureRead, loadedCalibration, Calibration.default, spec_kpa, spec_fine]
    · simp [afterPressureRead]
  · intro heq
    refine ⟨_, hmain.2 heq, by simpa using heq, by simp⟩

/-- The two bytes of a 16-bit word on the wire, little-endian. -/
def w16 (v : Nat) : List Nat := [v % 256, v / 256]

/-- A device answering the full initialization sequence: identity `0x58`,
the datasheet calibration words little-endian (signed values as their u16
wire form), then the datasheet temperature and pressure register bytes on
alternating reads. -/
def devFull : LinuxI2CDevice :=
  { replies := fun n =>
      match n with
      | 0 => Except.ok [0x58]
      | 1 => Except.ok (w16 27504)
      | 2 => Except.ok (w16 26435)
      | 3 => Except.ok (w16 64536)
      | 4 => Except.ok (w16 36477)
      | 5 => Except.ok (w16 54851)
      | 6 => Except.ok (w16 3024)
      | 7 => Except.ok (w16 2855)
      | 8 => Except.ok (w16 140)
      | 9 => Except.ok (w16 65529)
      | 10 => Except.ok (w16 15500)
      | 11 => Except.ok (w16 50936)
      | 12 => Except.ok (w16 6000)
      | 13 => Except.ok [0x7E, 0xED, 0x00]
      | _ => Except.ok [0x65, 0x5A, 0xC0]
    count := 0, writes := [] }

/-- A builder configured with a nonzero initial ground pressure. -/
def builderNonzero : Bmp280Builder :=
  { i2c_address := 0x77, i2c_path := "/dev/i2c-1", ground_pressure := 101325 }

/-- Witness for C9: both branches over `devFull` — the nonzero builder
triggers the automatic `zero()` (15 reads), the default builder does not
(13 reads, baseline stays 0). -/
theorem builder_ground_pressure_zeroing_witness :
    (∃ sens, builderNonzero.build devFull = Except.ok sens
      ∧ sens.i2c_device.count = devFull.count + 15)
    ∧ (∃ sens, Bmp280Builder.new.build devFull = Except.ok sens
      ∧ sens.ground_pressure = 0
      ∧ sens.i2c_device.count = devFull.count + 13) := by
  have hA := builder_ground_pressure_zeroing builderNonzero devFull [0x58]
    (w16 27504) (w16 26435) (w16 64536) (w16 36477) (w16 54851) (w16 3024)
    (w16 2855) (w16 140) (w16 65529) (w16 15500) (w16 50936) (w16 6000)
    [0x7E, 0xED, 0x00] [0x65, 0x5A, 0xC0]
    rfl (by decide) rfl rfl rfl rfl rfl rfl rfl rfl rfl rfl rfl rfl rfl rfl (by decide)
  have hB := builder_ground_pressure_zeroing Bmp280Builder.new devFull [0x58]
    (w16 27504) (w16 26435) (w16 64536) (w16 36477) (w16 54851) (w16 3024)
    (w16 2855) (w16 140) (w16 65529) (w16 15500) (w16 50936) (w16 6000)
    [0x7E, 0xED, 0x00] [0x65, 0x5A, 0xC0]
    rfl (by decide) rfl rfl rfl rfl rfl rfl rfl rfl rfl rfl rfl rfl rfl rfl (by decide)
  obtain ⟨sens, hbuild, _, hcount⟩ := hA.1 (by norm_num [builderNonzero])
  obtain ⟨sens2, hbuild2, hgp2, hcount2⟩ := hB.2 rfl
  exact ⟨⟨sens, hbuild, hcount⟩, ⟨sens2, hbuild2, hgp2, hcount2⟩⟩

/-- **C10.** The error `begin` returns on a chip-identity mismatch and the
error the pressure arithmetic returns on a zero divisor are the identical
value — the generic `Error.Other ()` variant — so a caller cannot
distinguish the two failure kinds by inspecting the returned error. -/
theorem mismatch_divzero_same_error (s : Bmp280) (bs : List Nat)
    (cal : Calibration) (adc_p fine : Int)
    (hrep : s.i2c_device.replies s.i2c_device.count = Except.ok bs)
    (hbad : (fillBuf 1 bs).getD 0 0 ≠ 0x58)
    (hdiv : spec_pressure_divisor cal fine = 0) :
    (s.begin).1 = Except.error (Error.Other ())
    ∧ Bmp280.pressure_pipeline cal adc_p fine = Except.error (Error.Other ())
    ∧ ∃ e : Error, (s.begin).1 = Except.error e
        ∧ Bmp280.pressure_pipeline cal adc_p fine = Except.error e := by
  have h1 : (s.begin).1 = Except.error (Error.Other ()) := by
    rw [begin_bad_chipid s bs hrep hbad]
  have h2 := pressure_pipeline_eq_err cal adc_p fine hdiv
  exact ⟨h1, h2, Error.Other (), h1, h2⟩

/-- Witness for C10: the bad-identity device and the all-zero calibration. -/
theorem mismatch_divzero_same_error_witness :
    (sBadChip.begin).1 = Except.error (Error.Other ())
    ∧ Bmp280.pressure_pipeline Calibration.default 415148 128422 =
        Except.error (Error.Other ()) :=
  let h := mismatch_divzero_same_error sBadChip [0x42] Calibration.default
    415148 128422 rfl (by decide) (by decide)
  ⟨h.1, h.2.1⟩
